import Mathlib

/-!
Verification of the sentinel repository: a PAM module (src/pam/pam_sentinel.c)
that spawns an unprivileged graphical helper (src/helper) and reads a one-line
decision token from it through a pipe.  The definitions below are a shallow
embedding of the decision-relevant code paths.
-/

namespace Sentinel

/-! ## PAM results (security/pam_modules.h constants used by the module) -/

inductive PamResult
  | success
  | authErr
  | ignore
  | systemErr
  | userUnknown
deriving DecidableEq, Repr

/-! ## Decision channel parsing (parent side of run_helper, pam_sentinel.c:480-504)

The parent performs a single read of at most sizeof(result)-1 = 15 bytes,
NUL-terminates, and truncates at the first of a newline or carriage return
(result[strcspn(result, "\n\r")] = 0).  It returns PAM_SUCCESS exactly when
the truncated buffer compares equal to "ALLOW". -/

/-- Read buffer capacity: sizeof(result) - 1 with char result[16]. -/
def read_cap : Nat := 15

/-- Character is neither LF nor CR (the strcspn "\n\r" stop set). -/
def line_char (c : Char) : Bool := c != '\n' && c != '\r'

/-- The token the parent extracts from the channel content: first at most
15 bytes, cut at the first LF or CR (pam_sentinel.c:480-493). -/
def parse_line (s : String) : String :=
  String.mk ((s.toList.take read_cap).takeWhile line_char)

/-- Modelled from the spec words only, for comparison with parse_line:
"parses exactly one line" / "exactly one line, newline-terminated".
The first line of a string is its maximal prefix free of LF. -/
def spec_first_line (s : String) : String :=
  String.mk (s.toList.takeWhile (fun c => c != '\n'))

/-! ## Channel outcome and the parent wait (run_helper, pam_sentinel.c:454-504)

The parent selects on the read end with tv_sec = cfg->timeout + 5.  If select
times out (or errors) it SIGKILLs the child, reaps it, and returns
PAM_AUTH_ERR.  Otherwise it reads; n <= 0 (channel closed with no data) is
PAM_AUTH_ERR; otherwise the parsed token decides.  waitpid is called on every
read path. -/

/-- What happens on the channel, from the parent's point of view: either the
write end is closed with no data at time t (read returns 0), or the first
data becomes available at time t with the given content. -/
inductive ChanOutcome
  | closedNoData (t : Nat)
  | dataAt (t : Nat) (content : String)
deriving DecidableEq, Repr

/-- The observable actions of the parent after fork: whether it SIGKILLed the
child, whether it reaped the child with waitpid, and the PAM return value. -/
structure ParentOutcome where
  killed : Bool
  reaped : Bool
  result : PamResult
deriving DecidableEq, Repr

/-- Parent side of run_helper (pam_sentinel.c:454-504): deadline-bounded wait
on the pipe, then parse.  The select deadline is cfg->timeout + 5 seconds. -/
def run_helper_parent (timeout : Nat) (ch : ChanOutcome) : ParentOutcome :=
  match ch with
  | ChanOutcome.closedNoData t =>
    if t ≤ timeout + 5 then
      { killed := false, reaped := true, result := PamResult.authErr }
    else
      { killed := true, reaped := true, result := PamResult.authErr }
  | ChanOutcome.dataAt t content =>
    if t ≤ timeout + 5 then
      if parse_line content = "ALLOW" then
        { killed := false, reaped := true, result := PamResult.success }
      else
        { killed := false, reaped := true, result := PamResult.authErr }
    else
      { killed := true, reaped := true, result := PamResult.authErr }

/-! ## Child process after fork (run_helper, pam_sentinel.c:363-452)

The child resolves the target identity, then (when getpwuid succeeds) calls
initgroups, then setgid, then setuid, then dup2, then execv.  Any failure is
an immediate _exit(1).  If execv itself returns, the child writes "DENY\n" to
the pipe and exits 1.  We record the trace of observable actions, with one
boolean per fallible call telling whether it succeeds. -/

/-- Observable actions of the child. -/
inductive ChildAct
  | callInitgroups
  | callSetgid
  | callSetuid
  | callDup2
  | callExec
  | writeChan (s : String)
  | exitCode (n : Nat)
deriving DecidableEq, Repr

/-- Is the action a write to the decision channel? -/
def is_write : ChildAct → Bool
  | ChildAct.writeChan _ => true
  | _ => false

/-- Child trace after dup2 succeeded: execv, and on exec failure the
fallback write of "DENY\n" followed by _exit(1) (pam_sentinel.c:445-451). -/
def child_after_ids (exec_ok : Bool) : List ChildAct :=
  if exec_ok then [ChildAct.callExec]
  else [ChildAct.callExec, ChildAct.writeChan "DENY\n", ChildAct.exitCode 1]

/-- Child trace from setgid on (pam_sentinel.c:401-414). -/
def child_after_groups (setgid_ok setuid_ok dup2_ok exec_ok : Bool) : List ChildAct :=
  if setgid_ok then
    if setuid_ok then
      if dup2_ok then
        ChildAct.callSetgid :: ChildAct.callSetuid :: ChildAct.callDup2 ::
          child_after_ids exec_ok
      else [ChildAct.callSetgid, ChildAct.callSetuid, ChildAct.callDup2,
            ChildAct.exitCode 1]
    else [ChildAct.callSetgid, ChildAct.callSetuid, ChildAct.exitCode 1]
  else [ChildAct.callSetgid, ChildAct.exitCode 1]

/-- Full child trace (pam_sentinel.c:386-452).  pwFound is whether
getpwuid(target_uid) succeeded; initgroups is attempted only in that case
(pam_sentinel.c:388-399). -/
def child_run (pwFound ig_ok setgid_ok setuid_ok dup2_ok exec_ok : Bool) :
    List ChildAct :=
  if pwFound then
    if ig_ok then
      ChildAct.callInitgroups ::
        child_after_groups setgid_ok setuid_ok dup2_ok exec_ok
    else [ChildAct.callInitgroups, ChildAct.exitCode 1]
  else child_after_groups setgid_ok setuid_ok dup2_ok exec_ok

/-- In list l, the first occurrence among a and b is an a (used to express
ordering of trace events).  Returns false if b comes first or neither occurs. -/
def firstComesBefore (a b : ChildAct) : List ChildAct → Bool
  | [] => false
  | x :: xs => if x = b then false else if x = a then true else firstComesBefore a b xs

/-! ## pam_sm_authenticate decision logic (pam_sentinel.c:508-568)

After loading the config: if not enabled, PAM_IGNORE; if no Wayland display
is reachable for the target user, branch on headless_action ("allow" /
"deny" / anything else); otherwise spawn the helper and return its result. -/

/-- Whether the module forked a helper child, and the PAM result. -/
structure AuthOutcome where
  spawned_helper : Bool
  result : PamResult
deriving DecidableEq, Repr

/-- Decision logic of pam_sm_authenticate (pam_sentinel.c:536-567), with the
display probe and the helper run abstracted as inputs. -/
def pam_sm_authenticate (enabled has_display : Bool) (headless_action : String)
    (helper_result : PamResult) : AuthOutcome :=
  if enabled = false then { spawned_helper := false, result := PamResult.ignore }
  else if has_display = false then
    if headless_action = "allow" then
      { spawned_helper := false, result := PamResult.success }
    else if headless_action = "deny" then
      { spawned_helper := false, result := PamResult.authErr }
    else { spawned_helper := false, result := PamResult.ignore }
  else { spawned_helper := true, result := helper_result }

/-! ## Helper application (src/helper/main.cpp, src/helper/session_lock.cpp)

The helper is a single-threaded GTK event loop.  AppState mirrors the struct
AppState of main.cpp (result, session lock state, first_monitor flag) plus
the list of window roles created for monitor notifications and the quit flag
(g_application_quit).  After g_application_run returns, main prints
to_string(state.result) on stdout and exits with 0 for Allow, 1 otherwise. -/

/-- confirm::Result (window.hpp:22). -/
inductive Result
  | Allow
  | Deny
  | Timeout
deriving DecidableEq, Repr

/-- confirm::to_string (window.hpp:25-35). -/
def result_to_string : Result → String
  | Result.Allow => "ALLOW"
  | Result.Deny => "DENY"
  | Result.Timeout => "TIMEOUT"

/-- wayland::LockState (session_lock.hpp:19). -/
inductive LockState
  | Unlocked
  | Locking
  | Locked
  | Failed
deriving DecidableEq, Repr

/-- wayland::LockResult (session_lock.hpp:22-27). -/
inductive LockResult
  | Success
  | NotSupported
  | AlreadyLocked
  | Failed
deriving DecidableEq, Repr

/-- The role of a window created for a monitor notification: the confirmation
dialog, or a blank undecorated cover window (main.cpp:127-154). -/
inductive Role
  | Prompt
  | Cover
deriving DecidableEq, Repr

/-- struct AppState of main.cpp:85-91, extended with the window-role trace
and the quit flag of g_application_quit. -/
structure AppState where
  result : Result
  lock_state : LockState
  first_monitor : Bool
  quit : Bool
  windows : List Role
deriving DecidableEq, Repr

/-- Events dispatched to the helper's event loop while the lock session is
active: the compositor lock signals (session_lock.cpp:129-172) and the
dialog's result callback (main.cpp:94-105). -/
inductive CompEvent
  | lockedSignal
  | failedSignal
  | monitorSignal
  | dialogResult (r : Result)
deriving DecidableEq, Repr

/-- One event-loop dispatch (signal handlers of session_lock.cpp composed
with the callbacks installed in on_activate_with_lock, main.cpp:107-154). -/
def handle_event (s : AppState) (e : CompEvent) : AppState :=
  match e with
  | CompEvent.lockedSignal => { s with lock_state := LockState.Locked }
  | CompEvent.failedSignal =>
    { s with lock_state := LockState.Failed, result := Result.Deny, quit := true }
  | CompEvent.monitorSignal =>
    if s.first_monitor then
      { s with first_monitor := false, windows := s.windows ++ [Role.Prompt] }
    else
      { s with windows := s.windows ++ [Role.Cover] }
  | CompEvent.dialogResult r =>
    if s.lock_state = LockState.Locked then
      { s with result := r, lock_state := LockState.Unlocked, quit := true }
    else
      { s with result := r, quit := true }

/-- The event loop: dispatch events until g_application_quit has been called
(after which g_application_run returns and no further events are handled). -/
def run_events (s : AppState) : List CompEvent → AppState
  | [] => s
  | e :: es => if s.quit then s else run_events (handle_event s e) es

/-- Initial AppState (main.cpp:208-214). -/
def initial_state : AppState :=
  { result := Result.Deny, lock_state := LockState.Unlocked,
    first_monitor := true, quit := false, windows := [] }

/-- Exit of the helper process: the bytes printed to stdout and the exit
code (main.cpp:227-230). -/
structure HelperExit where
  output : String
  code : Nat
deriving DecidableEq, Repr

/-- The helper's main flow in session-lock mode (main.cpp:107-163 and
191-231): attempt the lock; on a non-Success LockResult set result to Deny
and quit; otherwise run the event loop.  Afterwards main prints
to_string(result) followed by a newline and exits 0 iff result is Allow. -/
def helper_main_with_lock (lockRes : LockResult) (events : List CompEvent) :
    HelperExit :=
  let final :=
    if lockRes = LockResult.Success then
      run_events { initial_state with lock_state := LockState.Locking } events
    else
      { initial_state with result := Result.Deny, quit := true }
  { output := result_to_string final.result ++ "\n",
    code := if final.result = Result.Allow then 0 else 1 }

/-! ## Confirmation dialog state machine (src/helper/window.cpp)

WindowState mirrors the state fields of struct _ConfirmWindow plus the list
of result-callback invocations.  Time is the monotonic clock in
microseconds, as returned by g_get_monotonic_time. -/

/-- The parameters the window gets (window.hpp:38-49 restricted to the
fields that drive the state machine). -/
structure WindowParams where
  timeout : Nat
  min_display_time : Nat
  randomize : Bool
deriving DecidableEq, Repr

/-- State fields of struct _ConfirmWindow (window.cpp:107-139): start_time
(microseconds), whether the 100 ms timer source is installed, the
allow_enabled and result_sent latches, and the trace of on_result
invocations. -/
structure WindowState where
  start_time : Nat
  timer_id : Bool
  allow_enabled : Bool
  result_sent : Bool
  emitted : List Result
deriving DecidableEq, Repr

/-- Elapsed milliseconds: (g_get_monotonic_time() - start_time) / 1000
(window.cpp:164-165). -/
def elapsed_ms (s : WindowState) (now : Nat) : Nat :=
  (now - s.start_time) / 1000

/-- send_result (window.cpp:145-156): a one-way latch around the result
callback. -/
def send_result (s : WindowState) (r : Result) : WindowState :=
  if s.result_sent then s
  else { s with result_sent := true, emitted := s.emitted ++ [r] }

/-- on_allow_clicked (window.cpp:158-173): ignored unless allow_enabled,
and ignored when elapsed is below the minimum display time. -/
def on_allow_clicked (p : WindowParams) (s : WindowState) (now : Nat) :
    WindowState :=
  if s.allow_enabled = false then s
  else if elapsed_ms s now < p.min_display_time then s
  else send_result s Result.Allow

/-- on_deny_clicked (window.cpp:175-177). -/
def on_deny_clicked (s : WindowState) : WindowState :=
  send_result s Result.Deny

/-- on_key_pressed for Escape (window.cpp:212-222). -/
def on_key_escape (s : WindowState) : WindowState :=
  send_result s Result.Deny

/-- on_close_request (window.cpp:224-232). -/
def on_close_request (s : WindowState) : WindowState :=
  if s.result_sent = false then send_result s Result.Deny else s

/-- on_timer_tick (window.cpp:179-210): timeout expiry wins first (removing
the source); otherwise flip allow_enabled once elapsed reaches the minimum
display time. -/
def on_timer_tick (p : WindowParams) (s : WindowState) (now : Nat) :
    WindowState :=
  if p.timeout ≤ elapsed_ms s now / 1000 then
    { send_result s Result.Timeout with timer_id := false }
  else if s.allow_enabled = false then
    if p.min_display_time ≤ elapsed_ms s now then
      { s with allow_enabled := true }
    else s
  else s

/-- confirm_window_new (window.cpp:279-471, state-relevant tail 455-468):
record start time; with a positive timeout install the 100 ms timer, else
disable the countdown and enable the allow button immediately. -/
def confirm_window_new (p : WindowParams) (now : Nat) : WindowState :=
  if p.timeout > 0 then
    { start_time := now, timer_id := true, allow_enabled := false,
      result_sent := false, emitted := [] }
  else
    { start_time := now, timer_id := false, allow_enabled := true,
      result_sent := false, emitted := [] }

/-- Inputs to the dialog state machine. -/
inductive DialogEvent
  | allowClick (now : Nat)
  | denyClick
  | keyEscape
  | closeRequest
  | timerTick (now : Nat)
deriving DecidableEq, Repr

/-- Dispatch one input.  Timer ticks only fire while the timer source is
installed (g_timeout_add is skipped when timeout is 0, and the source is
removed when the tick latches Timeout). -/
def handle_dialog (p : WindowParams) (s : WindowState) : DialogEvent → WindowState
  | DialogEvent.allowClick now => on_allow_clicked p s now
  | DialogEvent.denyClick => on_deny_clicked s
  | DialogEvent.keyEscape => on_key_escape s
  | DialogEvent.closeRequest => on_close_request s
  | DialogEvent.timerTick now => if s.timer_id then on_timer_tick p s now else s

/-- Run the dialog over a list of inputs. -/
def run_dialog (p : WindowParams) (s : WindowState) : List DialogEvent → WindowState
  | [] => s
  | e :: es => run_dialog p (handle_dialog p s e) es

/-! ## Verification-only definitions -/

/-- Invariant tying the result_sent latch to the number of result-callback
invocations. -/
def DialogInv (s : WindowState) : Prop :=
  (s.result_sent = false ∧ s.emitted = []) ∨
  (s.result_sent = true ∧ s.emitted.length = 1)

/-- Invariant tying the first_monitor flag to the shape of the window-role
trace: before the first monitor notification no window exists, afterwards
the trace is one Prompt followed by Cover windows. -/
def WInv (s : AppState) : Prop :=
  (s.first_monitor = true → s.windows = []) ∧
  (s.first_monitor = false →
    ∃ k, s.windows = Role.Prompt :: List.replicate k Role.Cover)

/-- A dialog state whose decision is already latched (used as a witness
input). -/
def sentState : WindowState :=
  { start_time := 0, timer_id := true, allow_enabled := true,
    result_sent := true, emitted := [Result.Deny] }

/-- An armed dialog state with the allow button enabled (used as a witness
input). -/
def enabledState : WindowState :=
  { start_time := 0, timer_id := true, allow_enabled := true,
    result_sent := false, emitted := [] }

/-- The helper AppState right after the compositor "failed" signal has been
handled. -/
def failed_state : AppState :=
  { result := Result.Deny, lock_state := LockState.Failed,
    first_monitor := true, quit := true, windows := [] }

/-! ## Shared lemmas about the dialog state machine -/

lemma send_result_unsent (s : WindowState) (r : Result) (h : s.result_sent = false) :
    (send_result s r).emitted = s.emitted ++ [r] ∧
    (send_result s r).result_sent = true := by
  simp [send_result, h]

lemma send_result_start (s : WindowState) (r : Result) :
    (send_result s r).start_time = s.start_time := by
  unfold send_result
  split <;> rfl

lemma handle_dialog_sent (p : WindowParams) (s : WindowState) (e : DialogEvent)
    (h : s.result_sent = true) :
    (handle_dialog p s e).emitted = s.emitted ∧
    (handle_dialog p s e).result_sent = true := by
  have hs : ∀ r, send_result s r = s := fun r => by simp [send_result, h]
  cases e <;>
    simp only [handle_dialog, on_allow_clicked, on_deny_clicked, on_key_escape,
      on_close_request, on_timer_tick, hs] <;>
    first
      | exact ⟨rfl, h⟩
      | exact ⟨trivial, h⟩
      | (split_ifs <;> exact ⟨rfl, h⟩)

lemma run_dialog_sent (p : WindowParams) (events : List DialogEvent) :
    ∀ s : WindowState, s.result_sent = true →
      (run_dialog p s events).emitted = s.emitted ∧
      (run_dialog p s events).result_sent = true := by
  induction events with
  | nil => intro s h; exact ⟨rfl, h⟩
  | cons e es ih =>
    intro s h
    have h1 := handle_dialog_sent p s e h
    have h2 := ih (handle_dialog p s e) h1.2
    exact ⟨h2.1.trans h1.1, h2.2⟩

lemma send_result_inv (s : WindowState) (r : Result) (hs : s.result_sent = false)
    (he : s.emitted = []) : DialogInv (send_result s r) := by
  have h := send_result_unsent s r hs
  right
  refine ⟨h.2, ?_⟩
  rw [h.1, he]
  rfl

lemma dialog_inv_update (x : WindowState) (t a : Bool) (h : DialogInv x) :
    DialogInv { x with timer_id := t, allow_enabled := a } := by
  rcases h with ⟨h1, h2⟩ | ⟨h1, h2⟩
  · exact Or.inl ⟨h1, h2⟩
  · exact Or.inr ⟨h1, h2⟩

lemma handle_dialog_inv (p : WindowParams) (s : WindowState) (e : DialogEvent)
    (h : DialogInv s) : DialogInv (handle_dialog p s e) := by
  rcases h with ⟨hs, he⟩ | ⟨hs, he⟩
  · have hsend : ∀ r, DialogInv (send_result s r) :=
      fun r => send_result_inv s r hs he
    have hid : DialogInv s := Or.inl ⟨hs, he⟩
    cases e <;>
      simp only [handle_dialog, on_allow_clicked, on_deny_clicked, on_key_escape,
        on_close_request, on_timer_tick] <;>
      first
        | exact hid
        | exact hsend Result.Deny
        | (split_ifs <;>
            first
              | exact hid
              | exact hsend Result.Allow
              | exact hsend Result.Deny
              | exact dialog_inv_update _ _ _ hid
              | exact dialog_inv_update _ _ _ (hsend Result.Timeout))
  · have h1 := handle_dialog_sent p s e hs
    exact Or.inr ⟨h1.2, by rw [h1.1]; exact he⟩

lemma run_dialog_inv (p : WindowParams) (events : List DialogEvent) :
    ∀ s : WindowState, DialogInv s → DialogInv (run_dialog p s events) := by
  induction events with
  | nil => intro s h; exact h
  | cons e es ih => intro s h; exact ih _ (handle_dialog_inv p s e h)

lemma confirm_window_new_inv (p : WindowParams) (now : Nat) :
    DialogInv (confirm_window_new p now) := by
  unfold confirm_window_new
  split <;> exact Or.inl ⟨rfl, rfl⟩

lemma dialog_inv_length (s : WindowState) (h : DialogInv s) :
    s.emitted.length ≤ 1 := by
  rcases h with ⟨_, he⟩ | ⟨_, he⟩
  · rw [he]; exact Nat.zero_le 1
  · rw [he]

lemma not_mem_append_single (l : List Result) (r x : Result)
    (h1 : x ∉ l) (h2 : x ≠ r) : x ∉ l ++ [r] := by
  intro h
  rcases List.mem_append.mp h with h | h
  · exact h1 h
  · rw [List.mem_singleton] at h
    exact h2 h

lemma send_result_not_mem (s : WindowState) (r x : Result)
    (h1 : x ∉ s.emitted) (h2 : x ≠ r) : x ∉ (send_result s r).emitted := by
  unfold send_result
  split
  · exact h1
  · exact not_mem_append_single _ _ _ h1 h2

lemma handle_no_allow (p : WindowParams) (s : WindowState) (e : DialogEvent)
    (hA : Result.Allow ∉ s.emitted)
    (hE : ∀ now, e = DialogEvent.allowClick now →
      elapsed_ms s now < p.min_display_time) :
    Result.Allow ∉ (handle_dialog p s e).emitted := by
  cases e with
  | allowClick now =>
    have h := hE now rfl
    simp only [handle_dialog, on_allow_clicked]
    split_ifs with h1
    · exact hA
    · exact hA
  | denyClick => exact send_result_not_mem s Result.Deny Result.Allow hA (by decide)
  | keyEscape => exact send_result_not_mem s Result.Deny Result.Allow hA (by decide)
  | closeRequest =>
    simp only [handle_dialog, on_close_request]
    split_ifs
    · exact send_result_not_mem s Result.Deny Result.Allow hA (by decide)
    · exact hA
  | timerTick now =>
    simp only [handle_dialog, on_timer_tick]
    split_ifs <;>
      first
        | exact hA
        | exact send_result_not_mem s Result.Timeout Result.Allow hA (by decide)

lemma handle_start_time (p : WindowParams) (s : WindowState) (e : DialogEvent) :
    (handle_dialog p s e).start_time = s.start_time := by
  cases e <;>
    simp only [handle_dialog, on_allow_clicked, on_deny_clicked, on_key_escape,
      on_close_request, on_timer_tick] <;>
    first
      | rfl
      | exact send_result_start s Result.Deny
      | (split_ifs <;>
          first
            | rfl
            | exact send_result_start s Result.Allow
            | exact send_result_start s Result.Deny
            | exact send_result_start s Result.Timeout)

lemma elapsed_ms_handle (p : WindowParams) (s : WindowState) (e : DialogEvent)
    (now : Nat) : elapsed_ms (handle_dialog p s e) now = elapsed_ms s now := by
  unfold elapsed_ms
  rw [handle_start_time]

lemma run_dialog_no_allow (p : WindowParams) (events : List DialogEvent) :
    ∀ s : WindowState, Result.Allow ∉ s.emitted →
      (∀ now, DialogEvent.allowClick now ∈ events →
        elapsed_ms s now < p.min_display_time) →
      Result.Allow ∉ (run_dialog p s events).emitted := by
  induction events with
  | nil => intro s hA _; exact hA
  | cons e es ih =>
    intro s hA hE
    apply ih (handle_dialog p s e)
    · apply handle_no_allow p s e hA
      intro now hnow
      subst hnow
      exact hE now (List.mem_cons_self _ _)
    · intro now hmem
      rw [elapsed_ms_handle]
      exact hE now (List.mem_cons_of_mem e hmem)

lemma allow_click_fires (p : WindowParams) (s : WindowState) (now : Nat)
    (hen : s.allow_enabled = true) (hsent : s.result_sent = false)
    (hM : p.min_display_time ≤ elapsed_ms s now) :
    (handle_dialog p s (DialogEvent.allowClick now)).emitted =
      s.emitted ++ [Result.Allow] ∧
    (handle_dialog p s (DialogEvent.allowClick now)).result_sent = true := by
  simp only [handle_dialog, on_allow_clicked]
  rw [if_neg (by simp [hen]), if_neg (Nat.not_lt.mpr hM)]
  exact send_result_unsent s Result.Allow hsent

/-! ## Shared lemmas about the helper application -/

lemma run_events_quit (events : List CompEvent) (s : AppState)
    (h : s.quit = true) : run_events s events = s := by
  cases events with
  | nil => rfl
  | cons e es => simp [run_events, h]

lemma handle_event_winv (s : AppState) (e : CompEvent) (h : WInv s) :
    WInv (handle_event s e) := by
  obtain ⟨ht, hf⟩ := h
  cases e with
  | lockedSignal => exact ⟨ht, hf⟩
  | failedSignal => exact ⟨ht, hf⟩
  | monitorSignal =>
    simp only [handle_event]
    split_ifs with hfm
    · refine ⟨fun h1 => Bool.noConfusion h1, fun _ => ⟨0, ?_⟩⟩
      rw [ht hfm]
      rfl
    · have hfm2 : s.first_monitor = false := by
        revert hfm
        cases s.first_monitor <;> simp
      obtain ⟨k, hk⟩ := hf hfm2
      refine ⟨fun h1 => ?_, fun _ => ⟨k + 1, ?_⟩⟩
      · have h1s : s.first_monitor = true := h1
        rw [hfm2] at h1s
        exact Bool.noConfusion h1s
      · rw [hk]
        simp [List.replicate_succ', List.cons_append]
  | dialogResult r =>
    simp only [handle_event]
    split
    · exact ⟨ht, hf⟩
    · exact ⟨ht, hf⟩

lemma run_events_winv (events : List CompEvent) :
    ∀ s : AppState, WInv s → WInv (run_events s events) := by
  induction events with
  | nil => intro s h; exact h
  | cons e es ih =>
    intro s h
    by_cases hq : s.quit = true
    · rw [run_events_quit (e :: es) s hq]
      exact h
    · have hstep : run_events s (e :: es) = run_events (handle_event s e) es := by
        simp [run_events, hq]
      rw [hstep]
      exact ih _ (handle_event_winv s e h)

lemma count_prompt_replicate (k : Nat) :
    (List.replicate k Role.Cover).count Role.Prompt = 0 := by
  induction k with
  | zero => rfl
  | succ n ih =>
    rw [List.replicate_succ, List.count_cons]
    simp [ih]

/-! ## Claim theorems -/

/-- Claim C1: in the spawned child, the privilege drop applies initgroups,
then setgid, then last setuid, in that order; if initgroups, setgid, or
setuid fails, the child terminates immediately with exit status 1 without
calling exec and without writing anything to the decision channel, and the
parent, observing the closed channel with no data, returns PAM_AUTH_ERR. -/
theorem C1_priv_drop_order :
    (∀ (pwFound ig sg su d2 ex : Bool),
      (ChildAct.callSetuid ∈ child_run pwFound ig sg su d2 ex →
        firstComesBefore ChildAct.callSetgid ChildAct.callSetuid
          (child_run pwFound ig sg su d2 ex) = true) ∧
      (pwFound = true → ChildAct.callSetgid ∈ child_run pwFound ig sg su d2 ex →
        firstComesBefore ChildAct.callInitgroups ChildAct.callSetgid
          (child_run pwFound ig sg su d2 ex) = true) ∧
      ((pwFound = true ∧ ig = false) ∨ sg = false ∨ su = false →
        (child_run pwFound ig sg su d2 ex).getLast? = some (ChildAct.exitCode 1) ∧
        ChildAct.callExec ∉ child_run pwFound ig sg su d2 ex ∧
        (child_run pwFound ig sg su d2 ex).all (fun a => !(is_write a)) = true)) ∧
    (∀ (timeout t : Nat),
      (run_helper_parent timeout (ChanOutcome.closedNoData t)).result =
        PamResult.authErr ∧
      (run_helper_parent timeout (ChanOutcome.closedNoData t)).reaped = true) := by
  constructor
  · decide
  · intro timeout t
    simp only [run_helper_parent]
    split_ifs <;> exact ⟨rfl, rfl⟩

/-- Witness for C1_priv_drop_order at concrete inputs: with all calls
succeeding the trace orders setgid before setuid; with setgid failing the
trace ends in exit 1 with no exec; a closed channel yields PAM_AUTH_ERR. -/
theorem C1_priv_drop_order_witness :
    firstComesBefore ChildAct.callSetgid ChildAct.callSetuid
      (child_run true true true true true true) = true ∧
    (child_run true true false true true true).getLast? =
      some (ChildAct.exitCode 1) ∧
    ChildAct.callExec ∉ child_run true true false true true true ∧
    (run_helper_parent 30 (ChanOutcome.closedNoData 0)).result =
      PamResult.authErr := by
  have h := C1_priv_drop_order
  have h1 := (h.1 true true false true true true).2.2 (Or.inr (Or.inl rfl))
  exact ⟨(h.1 true true true true true true).1 (by decide), h1.1, h1.2.1,
    (h.2 30 0).1⟩

/-- Claim C6 (with the module enabled for the service, i.e. the attempt is
not short-circuited by the enabled check): when no display is reachable the
orchestrator returns without spawning any child, and the result is decided
by headless_action alone: allow yields PAM_SUCCESS, deny yields
PAM_AUTH_ERR, anything else yields PAM_IGNORE. -/
theorem C6_headless_policy (enabled : Bool) (action : String) (hr : PamResult)
    (h : enabled = true) :
    (pam_sm_authenticate enabled false action hr).spawned_helper = false ∧
    (action = "allow" →
      (pam_sm_authenticate enabled false action hr).result = PamResult.success) ∧
    (action = "deny" →
      (pam_sm_authenticate enabled false action hr).result = PamResult.authErr) ∧
    (action ≠ "allow" → action ≠ "deny" →
      (pam_sm_authenticate enabled false action hr).result = PamResult.ignore) := by
  subst h
  refine ⟨?_, ?_, ?_, ?_⟩
  · simp only [pam_sm_authenticate]
    split_ifs <;> rfl
  · intro ha
    simp [pam_sm_authenticate, ha]
  · intro ha
    simp [pam_sm_authenticate, ha]
  · intro ha hd
    simp [pam_sm_authenticate, ha, hd]

/-- Witness for C6_headless_policy: enabled module, headless_action allow,
no display: success without spawning, whatever the helper would return. -/
theorem C6_headless_policy_witness :
    (pam_sm_authenticate true false "allow" PamResult.authErr).result =
      PamResult.success ∧
    (pam_sm_authenticate true false "allow" PamResult.authErr).spawned_helper =
      false := by
  exact ⟨(C6_headless_policy true "allow" PamResult.authErr rfl).2.1 rfl,
    (C6_headless_policy true "allow" PamResult.authErr rfl).1⟩

/-- Counterexample to claim C7 as stated: the content "ALLOW\rX" is
malformed (it is none of the three newline-terminated tokens) and its first
line is not exactly "ALLOW", yet the module returns PAM_SUCCESS, because
strcspn also truncates at a carriage return. -/
theorem C7_counterexample :
    spec_first_line "ALLOW\rX" ≠ "ALLOW" ∧
    "ALLOW\rX" ≠ "ALLOW\n" ∧ "ALLOW\rX" ≠ "DENY\n" ∧ "ALLOW\rX" ≠ "TIMEOUT\n" ∧
    (run_helper_parent 30 (ChanOutcome.dataAt 0 "ALLOW\rX")).result =
      PamResult.success := by
  decide

/-- Claim C7 (amended): for content arriving within the deadline, the parent
returns PAM_SUCCESS if and only if the prefix of the first 15 bytes up to
the first LF or CR equals "ALLOW"; the DENY and TIMEOUT tokens and a channel
closed with no data yield PAM_AUTH_ERR, and the child is reaped in every
data-arrival case. -/
theorem C7_token_parse (timeout t : Nat) (s : String) (h : t ≤ timeout + 5) :
    ((run_helper_parent timeout (ChanOutcome.dataAt t s)).result =
        PamResult.success ↔ parse_line s = "ALLOW") ∧
    (run_helper_parent timeout (ChanOutcome.dataAt t s)).reaped = true ∧
    (run_helper_parent timeout (ChanOutcome.closedNoData t)).result =
      PamResult.authErr ∧
    parse_line "DENY\n" = "DENY" ∧ parse_line "TIMEOUT\n" = "TIMEOUT" := by
  refine ⟨?_, ?_, ?_, by decide, by decide⟩
  · simp only [run_helper_parent]
    rw [if_pos h]
    by_cases hp : parse_line s = "ALLOW"
    · simp [hp]
    · simp [hp]
  · simp only [run_helper_parent]
    rw [if_pos h]
    split_ifs <;> rfl
  · simp only [run_helper_parent]
    rw [if_pos h]

/-- Witness for C7_token_parse: a well-formed ALLOW token within the
deadline yields PAM_SUCCESS. -/
theorem C7_token_parse_witness :
    (run_helper_parent 30 (ChanOutcome.dataAt 0 "ALLOW\n")).result =
      PamResult.success := by
  exact ((C7_token_parse 30 0 "ALLOW\n" (by decide)).1).mpr (by decide)

/-- Claim C8: the wait on the decision channel is bounded by exactly
timeout + 5 seconds: data within the deadline is processed without killing
the child, while past the deadline the parent SIGKILLs the child, reaps it,
and returns PAM_AUTH_ERR. -/
theorem C8_deadline_bound :
    (∀ (timeout t : Nat) (s : String), t ≤ timeout + 5 →
      (run_helper_parent timeout (ChanOutcome.dataAt t s)).killed = false) ∧
    (∀ (timeout t : Nat) (s : String), timeout + 5 < t →
      (run_helper_parent timeout (ChanOutcome.dataAt t s)).killed = true ∧
      (run_helper_parent timeout (ChanOutcome.dataAt t s)).reaped = true ∧
      (run_helper_parent timeout (ChanOutcome.dataAt t s)).result =
        PamResult.authErr) ∧
    (∀ (timeout t : Nat), timeout + 5 < t →
      (run_helper_parent timeout (ChanOutcome.closedNoData t)).killed = true ∧
      (run_helper_parent timeout (ChanOutcome.closedNoData t)).reaped = true ∧
      (run_helper_parent timeout (ChanOutcome.closedNoData t)).result =
        PamResult.authErr) := by
  refine ⟨?_, ?_, ?_⟩
  · intro timeout t s h
    simp only [run_helper_parent]
    rw [if_pos h]
    split_ifs <;> rfl
  · intro timeout t s h
    simp only [run_helper_parent]
    rw [if_neg (Nat.not_le.mpr h)]
    exact ⟨rfl, rfl, rfl⟩
  · intro timeout t h
    simp only [run_helper_parent]
    rw [if_neg (Nat.not_le.mpr h)]
    exact ⟨rfl, rfl, rfl⟩

/-- Witness for C8_deadline_bound with timeout 30: data at t = 36 > 35 is
past the deadline (kill, reap, PAM_AUTH_ERR); data at t = 35 is within it. -/
theorem C8_deadline_bound_witness :
    (run_helper_parent 30 (ChanOutcome.dataAt 36 "ALLOW\n")).killed = true ∧
    (run_helper_parent 30 (ChanOutcome.dataAt 36 "ALLOW\n")).result =
      PamResult.authErr ∧
    (run_helper_parent 30 (ChanOutcome.dataAt 35 "ALLOW\n")).killed = false := by
  have h := C8_deadline_bound
  exact ⟨(h.2.1 30 36 "ALLOW\n" (by decide)).1,
    (h.2.1 30 36 "ALLOW\n" (by decide)).2.2,
    h.1 30 35 "ALLOW\n" (by decide)⟩

/-- Claim C10: when the privilege drop fully succeeds and execv fails, the
child writes the valid token "DENY\n" to the decision channel and exits
with status 1, and the parent parses DENY and returns PAM_AUTH_ERR. -/
theorem C10_exec_failure_writes_deny :
    (∀ pwFound : Bool,
      child_run pwFound true true true true false =
        (if pwFound then [ChildAct.callInitgroups] else []) ++
          [ChildAct.callSetgid, ChildAct.callSetuid, ChildAct.callDup2,
           ChildAct.callExec, ChildAct.writeChan "DENY\n",
           ChildAct.exitCode 1]) ∧
    (∀ (timeout t : Nat), t ≤ timeout + 5 →
      (run_helper_parent timeout (ChanOutcome.dataAt t "DENY\n")).result =
        PamResult.authErr ∧
      (run_helper_parent timeout (ChanOutcome.dataAt t "DENY\n")).reaped =
        true) := by
  constructor
  · decide
  · intro timeout t h
    simp only [run_helper_parent]
    rw [if_pos h, if_neg (by decide : ¬ parse_line "DENY\n" = "ALLOW")]
    exact ⟨rfl, rfl⟩

/-- Witness for C10_exec_failure_writes_deny at concrete inputs. -/
theorem C10_exec_failure_writes_deny_witness :
    child_run true true true true true false =
      [ChildAct.callInitgroups, ChildAct.callSetgid, ChildAct.callSetuid,
       ChildAct.callDup2, ChildAct.callExec, ChildAct.writeChan "DENY\n",
       ChildAct.exitCode 1] ∧
    (run_helper_parent 30 (ChanOutcome.dataAt 0 "DENY\n")).result =
      PamResult.authErr := by
  exact ⟨C10_exec_failure_writes_deny.1 true,
    (C10_exec_failure_writes_deny.2 30 0 (by decide)).1⟩

/-- Counterexample to claim C3 as stated: with timeout 30 s and minimum
display time 500 ms, ticks at 100..400 ms leave allow_enabled false; an
accept input at elapsed 500 ms (at least the minimum, dialog undecided) is
then a no-op: no Allow outcome is produced at all, let alone exactly once. -/
theorem C3_counterexample :
    (run_dialog (WindowParams.mk 30 500 false)
      (confirm_window_new (WindowParams.mk 30 500 false) 0)
      [DialogEvent.timerTick 100000, DialogEvent.timerTick 200000,
       DialogEvent.timerTick 300000, DialogEvent.timerTick 400000]).result_sent
      = false ∧
    500 ≤ elapsed_ms
      (run_dialog (WindowParams.mk 30 500 false)
        (confirm_window_new (WindowParams.mk 30 500 false) 0)
        [DialogEvent.timerTick 100000, DialogEvent.timerTick 200000,
         DialogEvent.timerTick 300000, DialogEvent.timerTick 400000]) 500500 ∧
    (run_dialog (WindowParams.mk 30 500 false)
      (confirm_window_new (WindowParams.mk 30 500 false) 0)
      [DialogEvent.timerTick 100000, DialogEvent.timerTick 200000,
       DialogEvent.timerTick 300000, DialogEvent.timerTick 400000,
       DialogEvent.allowClick 500500]).emitted = [] := by
  decide

/-- Claim C3 (amended): an accept input at elapsed below the minimum display
time never produces Allow; an accept input arriving while undecided with the
accept action enabled and elapsed at least the minimum produces Allow
exactly once (the enable flag is set by the first timer tick at or past the
minimum, or immediately at creation when timeout is 0); once decided, no
further outcome is ever emitted. -/
theorem C3_min_display_gate :
    (∀ (p : WindowParams) (s : WindowState) (events : List DialogEvent),
      Result.Allow ∉ s.emitted →
      (∀ now, DialogEvent.allowClick now ∈ events →
        elapsed_ms s now < p.min_display_time) →
      Result.Allow ∉ (run_dialog p s events).emitted) ∧
    (∀ (p : WindowParams) (s : WindowState) (now : Nat),
      s.allow_enabled = true → s.result_sent = false →
      p.min_display_time ≤ elapsed_ms s now →
      (handle_dialog p s (DialogEvent.allowClick now)).emitted =
        s.emitted ++ [Result.Allow] ∧
      (handle_dialog p s (DialogEvent.allowClick now)).result_sent = true) ∧
    (∀ (p : WindowParams) (s : WindowState) (events : List DialogEvent),
      s.result_sent = true → (run_dialog p s events).emitted = s.emitted) := by
  exact ⟨fun p s events hA hE => run_dialog_no_allow p events s hA hE,
    fun p s now h1 h2 h3 => allow_click_fires p s now h1 h2 h3,
    fun p s events h => (run_dialog_sent p events s h).1⟩

/-- Witness for C3_min_display_gate: an accept at 400 ms with minimum 500 ms
yields no Allow; an enabled, undecided accept at 600 ms emits Allow. -/
theorem C3_min_display_gate_witness :
    Result.Allow ∉ (run_dialog (WindowParams.mk 30 500 false)
      (confirm_window_new (WindowParams.mk 30 500 false) 0)
      [DialogEvent.allowClick 400000]).emitted ∧
    (handle_dialog (WindowParams.mk 30 500 false) enabledState
      (DialogEvent.allowClick 600000)).emitted = [Result.Allow] := by
  refine ⟨C3_min_display_gate.1 _ _ _ (by decide) ?_, ?_⟩
  · intro now hmem
    rw [List.mem_singleton] at hmem
    injection hmem with hnow
    subst hnow
    decide
  · have h := (C3_min_display_gate.2.1 (WindowParams.mk 30 500 false)
      enabledState 600000 rfl rfl (by decide)).1
    rw [h]
    rfl

/-- Claim C4: the decision is a one-way latch: over any input sequence the
result callback fires at most once; once the latch is set every further
input of any kind leaves the emitted outcome unchanged; and the helper
process prints exactly one decision token on exit. -/
theorem C4_decision_latch :
    (∀ (p : WindowParams) (now0 : Nat) (events : List DialogEvent),
      (run_dialog p (confirm_window_new p now0) events).emitted.length ≤ 1) ∧
    (∀ (p : WindowParams) (s : WindowState) (events : List DialogEvent),
      s.result_sent = true →
      (run_dialog p s events).emitted = s.emitted ∧
      (run_dialog p s events).result_sent = true) ∧
    (∀ (lockRes : LockResult) (events : List CompEvent),
      ∃ r : Result,
        (helper_main_with_lock lockRes events).output =
          result_to_string r ++ "\n") := by
  refine ⟨?_, ?_, ?_⟩
  · intro p now0 events
    exact dialog_inv_length _
      (run_dialog_inv p events _ (confirm_window_new_inv p now0))
  · intro p s events h
    exact run_dialog_sent p events s h
  · intro lockRes events
    unfold helper_main_with_lock
    exact ⟨_, rfl⟩

/-- Witness for C4_decision_latch: a deny followed by racing inputs emits
exactly the one Deny, and a latched state absorbs a further click. -/
theorem C4_decision_latch_witness :
    (run_dialog (WindowParams.mk 30 500 false)
      (confirm_window_new (WindowParams.mk 30 500 false) 0)
      [DialogEvent.denyClick, DialogEvent.allowClick 600000,
       DialogEvent.keyEscape]).emitted.length ≤ 1 ∧
    (run_dialog (WindowParams.mk 30 500 false) sentState
      [DialogEvent.allowClick 600000]).emitted = sentState.emitted := by
  exact ⟨C4_decision_latch.1 (WindowParams.mk 30 500 false) 0 _,
    (C4_decision_latch.2.1 (WindowParams.mk 30 500 false) sentState _ rfl).1⟩

/-- Counterexample to claim C5 as stated: with timeout 0 the allow action is
enabled immediately, but an accept input at elapsed 100 ms < 500 ms minimum
display time is still a no-op (on_allow_clicked checks the minimum display
time itself), so it does not produce Allow. -/
theorem C5_counterexample :
    (confirm_window_new (WindowParams.mk 0 500 false) 0).allow_enabled = true ∧
    elapsed_ms (confirm_window_new (WindowParams.mk 0 500 false) 0) 100000
      < 500 ∧
    (run_dialog (WindowParams.mk 0 500 false)
      (confirm_window_new (WindowParams.mk 0 500 false) 0)
      [DialogEvent.allowClick 100000]).emitted = [] := by
  decide

/-- Claim C5 (amended): with timeout 0 the countdown is disabled entirely
(no timer source, ticks are no-ops) and accept_enabled is true immediately
from creation; an accept input then produces Allow as soon as elapsed
reaches the minimum display time, but an accept before the minimum display
time is still a no-op, because the accept handler checks the minimum
display time independently of accept_enabled. -/
theorem C5_zero_timeout :
    (∀ (M : Nat) (r : Bool) (now0 : Nat),
      (confirm_window_new (WindowParams.mk 0 M r) now0).allow_enabled = true ∧
      (confirm_window_new (WindowParams.mk 0 M r) now0).timer_id = false) ∧
    (∀ (p : WindowParams) (s : WindowState) (now : Nat), s.timer_id = false →
      handle_dialog p s (DialogEvent.timerTick now) = s) ∧
    (∀ (M : Nat) (r : Bool) (now0 now : Nat),
      M ≤ (now - now0) / 1000 →
      (run_dialog (WindowParams.mk 0 M r)
        (confirm_window_new (WindowParams.mk 0 M r) now0)
        [DialogEvent.allowClick now]).emitted = [Result.Allow]) ∧
    (∀ (M : Nat) (r : Bool) (now0 now : Nat),
      (now - now0) / 1000 < M →
      (run_dialog (WindowParams.mk 0 M r)
        (confirm_window_new (WindowParams.mk 0 M r) now0)
        [DialogEvent.allowClick now]).emitted = []) := by
  have hnew : ∀ (M : Nat) (r : Bool) (now0 : Nat),
      confirm_window_new (WindowParams.mk 0 M r) now0 =
        { start_time := now0, timer_id := false, allow_enabled := true,
          result_sent := false, emitted := [] } := by
    intro M r now0
    simp [confirm_window_new]
  refine ⟨?_, ?_, ?_, ?_⟩
  · intro M r now0
    rw [hnew]
    exact ⟨rfl, rfl⟩
  · intro p s now h
    simp only [handle_dialog]
    rw [if_neg (by simp [h])]
  · intro M r now0 now h
    simp only [run_dialog, hnew, handle_dialog, on_allow_clicked, elapsed_ms,
      send_result]
    simp [Nat.not_lt.mpr h]
  · intro M r now0 now h
    simp only [run_dialog, hnew, handle_dialog, on_allow_clicked, elapsed_ms,
      send_result]
    simp [h]

/-- Witness for C5_zero_timeout at concrete inputs: with timeout 0 the
allow button is enabled at creation and a click at 600 ms emits Allow. -/
theorem C5_zero_timeout_witness :
    (run_dialog (WindowParams.mk 0 500 false)
      (confirm_window_new (WindowParams.mk 0 500 false) 0)
      [DialogEvent.allowClick 600000]).emitted = [Result.Allow] ∧
    (confirm_window_new (WindowParams.mk 0 500 true) 7).allow_enabled = true := by
  exact ⟨C5_zero_timeout.2.2.1 500 false 0 600000 (by decide),
    (C5_zero_timeout.1 500 true 7).1⟩

/-- Counterexample to claim C2 as stated: when the compositor fires the
"failed" signal (and likewise when the lock call itself fails), the helper
does NOT close the decision channel without writing: main unconditionally
prints the final result, so the channel carries the token "DENY\n". -/
theorem C2_counterexample :
    (helper_main_with_lock LockResult.Success [CompEvent.failedSignal]).output
      = "DENY\n" ∧
    (helper_main_with_lock LockResult.Success [CompEvent.failedSignal]).output
      ≠ "" ∧
    (helper_main_with_lock LockResult.Failed []).output = "DENY\n" := by
  decide

/-- Claim C2 (amended): when the compositor rejects the exclusive session
lock (the lock attempt fails, or the failed signal fires as the first
event), the display session terminates cleanly with exit code 1 and writes
the token "DENY\n" to the decision channel, which the orchestrator parses
as a deny and returns PAM_AUTH_ERR (fail closed). -/
theorem C2_lock_rejection_denies :
    (∀ (lockRes : LockResult) (events : List CompEvent),
      lockRes ≠ LockResult.Success →
      (helper_main_with_lock lockRes events).output = "DENY\n" ∧
      (helper_main_with_lock lockRes events).code = 1) ∧
    (∀ events : List CompEvent,
      (helper_main_with_lock LockResult.Success
        (CompEvent.failedSignal :: events)).output = "DENY\n" ∧
      (helper_main_with_lock LockResult.Success
        (CompEvent.failedSignal :: events)).code = 1) ∧
    (∀ (timeout t : Nat), t ≤ timeout + 5 →
      (run_helper_parent timeout (ChanOutcome.dataAt t "DENY\n")).result =
        PamResult.authErr) := by
  refine ⟨?_, ?_, ?_⟩
  · intro lockRes events h
    unfold helper_main_with_lock
    rw [if_neg h]
    exact ⟨rfl, rfl⟩
  · intro events
    have h1 : helper_main_with_lock LockResult.Success
        (CompEvent.failedSignal :: events) =
        { output := result_to_string (run_events failed_state events).result
            ++ "\n",
          code := if (run_events failed_state events).result = Result.Allow
            then 0 else 1 } := rfl
    rw [h1, run_events_quit events failed_state rfl]
    exact ⟨rfl, rfl⟩
  · intro timeout t h
    simp only [run_helper_parent]
    rw [if_pos h, if_neg (by decide : ¬ parse_line "DENY\n" = "ALLOW")]

/-- Witness for C2_lock_rejection_denies: a NotSupported lock result yields
the DENY token and exit 1, and the orchestrator maps that token to
PAM_AUTH_ERR. -/
theorem C2_lock_rejection_denies_witness :
    (helper_main_with_lock LockResult.NotSupported []).output = "DENY\n" ∧
    (helper_main_with_lock LockResult.NotSupported []).code = 1 ∧
    (run_helper_parent 30 (ChanOutcome.dataAt 1 "DENY\n")).result =
      PamResult.authErr := by
  exact ⟨(C2_lock_rejection_denies.1 LockResult.NotSupported [] (by decide)).1,
    (C2_lock_rejection_denies.1 LockResult.NotSupported [] (by decide)).2,
    C2_lock_rejection_denies.2.2 30 1 (by decide)⟩

/-- Claim C9: over any sequence of events after the lock request, the
window-role trace is either empty or exactly one Prompt (answering the
first monitor notification) followed by Cover windows for every subsequent
notification; in particular at most one surface carries the prompt. -/
theorem C9_single_prompt (events : List CompEvent) :
    ((run_events { initial_state with lock_state := LockState.Locking }
        events).windows = [] ∨
      ∃ k, (run_events { initial_state with lock_state := LockState.Locking }
        events).windows = Role.Prompt :: List.replicate k Role.Cover) ∧
    (run_events { initial_state with lock_state := LockState.Locking }
      events).windows.count Role.Prompt ≤ 1 := by
  have h0 : WInv { initial_state with lock_state := LockState.Locking } :=
    ⟨fun _ => rfl, fun h => Bool.noConfusion h⟩
  obtain ⟨ht, hf⟩ := run_events_winv events _ h0
  cases hfm : (run_events { initial_state with lock_state := LockState.Locking }
      events).first_monitor
  · obtain ⟨k, hk⟩ := hf hfm
    refine ⟨Or.inr ⟨k, hk⟩, ?_⟩
    rw [hk, List.count_cons, count_prompt_replicate]
    simp
  · have hw := ht hfm
    refine ⟨Or.inl hw, ?_⟩
    rw [hw]
    exact Nat.zero_le 1

end Sentinel
